import Mathlib

/-!
Verification of the capability-typed result and configuration machinery of
seqan3 (files `alignment_result.hpp` and `max_error.hpp`).

Shallow embedding conventions:
* `alignment_result_value_type` in C++ marks an absent field by instantiating
  its type parameter with the sentinel type `std::nullopt_t *`.  Here each
  field is wrapped in `Option`: `none` models the sentinel instantiation,
  `some v` models a present field holding `v`.
* The accessors of `alignment_result` fire a `static_assert` when the field's
  type is the sentinel.  Here each accessor returns
  `Except CapabilityError _`, with `Except.error` modelling the build-time
  rejection; a present field yields `Except.ok` with the stored value, exactly
  as the C++ accessor returns `data.field`.
* The position pair members `.first` / `.second` of the C++ position types are
  modelled by instantiating the corresponding type parameter at a product
  type, mirroring that the position accessors only compile for pair-like
  instantiations.
-/

namespace Seqan3

/-- Error raised (at build time in C++, via the `static_assert` in each
accessor) when a field that was not requested is accessed. -/
inductive CapabilityError where
  | absent_field
deriving DecidableEq, Repr

/-- Error raised when a tagged value is constructed outside its domain. -/
inductive RangeError where
  | out_of_range
deriving DecidableEq, Repr

/-- Embedding of `seqan3::detail::alignment_result_value_type` (the struct
holding the actual alignment result data, `alignment_result.hpp` lines
45-69).  An `Option`-wrapped field with value `none` models the type
parameter being instantiated at the absent sentinel `std::nullopt_t *`. -/
structure alignment_result_value_type (id_t score_t end_positions_t begin_positions_t alignment_t score_debug_matrix_t trace_debug_matrix_t : Type) where
  id : Option id_t
  score : Option score_t
  end_positions : Option end_positions_t
  begin_positions : Option begin_positions_t
  alignment : Option alignment_t
  score_debug_matrix : Option score_debug_matrix_t
  trace_debug_matrix : Option trace_debug_matrix_t

/-- Embedding of `seqan3::alignment_result` (lines 132-328): a read-only
wrapper around one `alignment_result_value_type` object, constructed from a
value object (`alignment_result(alignment_result_value_t value)`). -/
structure alignment_result (id_t score_t end_positions_t begin_positions_t alignment_t score_debug_matrix_t trace_debug_matrix_t : Type) where
  data : alignment_result_value_type id_t score_t end_positions_t begin_positions_t alignment_t score_debug_matrix_t trace_debug_matrix_t

variable {id_t score_t end_positions_t begin_positions_t alignment_t score_debug_matrix_t trace_debug_matrix_t : Type}

variable {ep1_t ep2_t bp1_t bp2_t : Type}

/-- Accessor `alignment_result::id()` (lines 196-201): returns `data.id`;
the `static_assert` firing on the sentinel type is modelled by
`Except.error`. -/
def alignment_result.id (r : alignment_result id_t score_t end_positions_t begin_positions_t alignment_t score_debug_matrix_t trace_debug_matrix_t) : Except CapabilityError id_t :=
  match r.data.id with
  | some v => Except.ok v
  | none => Except.error CapabilityError.absent_field

/-- Accessor `alignment_result::score()` (lines 206-211). -/
def alignment_result.score (r : alignment_result id_t score_t end_positions_t begin_positions_t alignment_t score_debug_matrix_t trace_debug_matrix_t) : Except CapabilityError score_t :=
  match r.data.score with
  | some v => Except.ok v
  | none => Except.error CapabilityError.absent_field

/-- Accessor `alignment_result::sequence1_end_position()` (lines 219-225):
returns `data.end_positions.first`; only available for pair-like
instantiations of the end-positions type. -/
def alignment_result.sequence1_end_position (r : alignment_result id_t score_t (ep1_t × ep2_t) begin_positions_t alignment_t score_debug_matrix_t trace_debug_matrix_t) : Except CapabilityError ep1_t :=
  match r.data.end_positions with
  | some p => Except.ok p.1
  | none => Except.error CapabilityError.absent_field

/-- Accessor `alignment_result::sequence2_end_position()` (lines 233-239):
returns `data.end_positions.second`. -/
def alignment_result.sequence2_end_position (r : alignment_result id_t score_t (ep1_t × ep2_t) begin_positions_t alignment_t score_debug_matrix_t trace_debug_matrix_t) : Except CapabilityError ep2_t :=
  match r.data.end_positions with
  | some p => Except.ok p.2
  | none => Except.error CapabilityError.absent_field

/-- Accessor `alignment_result::sequence1_begin_position()` (lines 251-257):
returns `data.begin_positions.first`. -/
def alignment_result.sequence1_begin_position (r : alignment_result id_t score_t end_positions_t (bp1_t × bp2_t) alignment_t score_debug_matrix_t trace_debug_matrix_t) : Except CapabilityError bp1_t :=
  match r.data.begin_positions with
  | some p => Except.ok p.1
  | none => Except.error CapabilityError.absent_field

/-- Accessor `alignment_result::sequence2_begin_position()` (lines 269-275):
returns `data.begin_positions.second`. -/
def alignment_result.sequence2_begin_position (r : alignment_result id_t score_t end_positions_t (bp1_t × bp2_t) alignment_t score_debug_matrix_t trace_debug_matrix_t) : Except CapabilityError bp2_t :=
  match r.data.begin_positions with
  | some p => Except.ok p.2
  | none => Except.error CapabilityError.absent_field

/-- Accessor `alignment_result::alignment()` (lines 283-288). -/
def alignment_result.alignment (r : alignment_result id_t score_t end_positions_t begin_positions_t alignment_t score_debug_matrix_t trace_debug_matrix_t) : Except CapabilityError alignment_t :=
  match r.data.alignment with
  | some v => Except.ok v
  | none => Except.error CapabilityError.absent_field

/-- Accessor `alignment_result::score_matrix()` (lines 303-308). -/
def alignment_result.score_matrix (r : alignment_result id_t score_t end_positions_t begin_positions_t alignment_t score_debug_matrix_t trace_debug_matrix_t) : Except CapabilityError score_debug_matrix_t :=
  match r.data.score_debug_matrix with
  | some v => Except.ok v
  | none => Except.error CapabilityError.absent_field

/-- Accessor `alignment_result::trace_matrix()` (lines 321-326). -/
def alignment_result.trace_matrix (r : alignment_result id_t score_t end_positions_t begin_positions_t alignment_t score_debug_matrix_t trace_debug_matrix_t) : Except CapabilityError trace_debug_matrix_t :=
  match r.data.trace_debug_matrix with
  | some v => Except.ok v
  | none => Except.error CapabilityError.absent_field

/-- The value object of the deduction guide for id and score only
(`alignment_result_value_type(id_t, score_t)`, lines 80-82): all remaining
fields are instantiated at the absent sentinel.  The unused sentinel type
parameters are instantiated at `Unit`. -/
def id_score_value (i : id_t) (s : score_t) : alignment_result_value_type id_t score_t Unit Unit Unit Unit Unit :=
  { id := some i
    score := some s
    end_positions := none
    begin_positions := none
    alignment := none
    score_debug_matrix := none
    trace_debug_matrix := none }

/-- C1: a result built with only the `id` and `score` fields requested, from
algorithm output with id "r1" and score 42, answers `id()` with "r1" and
`score()` with 42, while accessing `alignment()` fails (the absent-field
rejection) rather than returning a value. -/
theorem claim_C1 :
    (alignment_result.mk (id_score_value "r1" (42 : Int))).id = Except.ok "r1" ∧
    (alignment_result.mk (id_score_value "r1" (42 : Int))).score = Except.ok (42 : Int) ∧
    (alignment_result.mk (id_score_value "r1" (42 : Int))).alignment = Except.error CapabilityError.absent_field := by
  refine ⟨rfl, rfl, rfl⟩

/-- C2: for every capability-typed result, each accessor of a field that was
not requested (the field is the absent sentinel) fails with the capability
error; it never returns a value, so no default can be mistaken for a real
score or position. -/
theorem claim_C2 (r : alignment_result id_t score_t (ep1_t × ep2_t) (bp1_t × bp2_t) alignment_t score_debug_matrix_t trace_debug_matrix_t) :
    (r.data.id = none → r.id = Except.error CapabilityError.absent_field) ∧
    (r.data.score = none → r.score = Except.error CapabilityError.absent_field) ∧
    (r.data.end_positions = none →
      r.sequence1_end_position = Except.error CapabilityError.absent_field ∧
      r.sequence2_end_position = Except.error CapabilityError.absent_field) ∧
    (r.data.begin_positions = none →
      r.sequence1_begin_position = Except.error CapabilityError.absent_field ∧
      r.sequence2_begin_position = Except.error CapabilityError.absent_field) ∧
    (r.data.alignment = none → r.alignment = Except.error CapabilityError.absent_field) ∧
    (r.data.score_debug_matrix = none → r.score_matrix = Except.error CapabilityError.absent_field) ∧
    (r.data.trace_debug_matrix = none → r.trace_matrix = Except.error CapabilityError.absent_field) := by
  refine ⟨fun h => ?_, fun h => ?_, fun h => ⟨?_, ?_⟩, fun h => ⟨?_, ?_⟩, fun h => ?_, fun h => ?_, fun h => ?_⟩ <;>
    simp [alignment_result.id, alignment_result.score, alignment_result.sequence1_end_position,
      alignment_result.sequence2_end_position, alignment_result.sequence1_begin_position,
      alignment_result.sequence2_begin_position, alignment_result.alignment,
      alignment_result.score_matrix, alignment_result.trace_matrix, h]

/-- Witness for C2 at a concrete result with only id and score present. -/
theorem claim_C2_witness :
    (alignment_result.mk
      { id := some "r1"
        score := some (42 : Int)
        end_positions := (none : Option (Nat × Nat))
        begin_positions := (none : Option (Nat × Nat))
        alignment := (none : Option String)
        score_debug_matrix := (none : Option Unit)
        trace_debug_matrix := (none : Option Unit) }).alignment = Except.error CapabilityError.absent_field :=
  (claim_C2 (alignment_result.mk
      { id := some "r1"
        score := some (42 : Int)
        end_positions := (none : Option (Nat × Nat))
        begin_positions := (none : Option (Nat × Nat))
        alignment := (none : Option String)
        score_debug_matrix := (none : Option Unit)
        trace_debug_matrix := (none : Option Unit) })).2.2.2.2.1 rfl

/-- Piece printed by `if constexpr (has_id) stream << "id: " << result.id();`
(line 382-383 of `alignment_result.hpp`). -/
def id_piece (print_id : id_t → String) (o : Option id_t) : String :=
  match o with
  | some v => "id: " ++ print_id v
  | none => ""

/-- Piece printed by `if constexpr (has_score) stream << ", score: " <<
result.score();` (lines 384-385). -/
def score_piece (print_score : score_t → String) (o : Option score_t) : String :=
  match o with
  | some v => ", score: " ++ print_score v
  | none => ""

/-- Piece printed by the `has_begin_positions` branch (lines 386-387). -/
def begin_piece (print_b1 : bp1_t → String) (print_b2 : bp2_t → String) (o : Option (bp1_t × bp2_t)) : String :=
  match o with
  | some p => ", begin: (" ++ print_b1 p.1 ++ "," ++ print_b2 p.2 ++ ")"
  | none => ""

/-- Piece printed by the `has_end_positions` branch (lines 388-389). -/
def end_piece (print_e1 : ep1_t → String) (print_e2 : ep2_t → String) (o : Option (ep1_t × ep2_t)) : String :=
  match o with
  | some p => ", end: (" ++ print_e1 p.1 ++ "," ++ print_e2 p.2 ++ ")"
  | none => ""

/-- Piece printed by the `has_alignment` branch (lines 390-391). -/
def alignment_piece (print_align : alignment_t → String) (o : Option alignment_t) : String :=
  match o with
  | some v => "\nalignment:\n" ++ print_align v
  | none => ""

/-- Embedding of the debug stream insertion operator
`operator<<(debug_stream_type&, alignment_result_t&&)` (lines 367-395): an
opening brace, then for each present field its piece in the order id, score,
begin positions, end positions, alignment, then a closing brace.  The
`print_*` functions model `stream <<` on the respective payload types. -/
def stream_alignment_result (print_id : id_t → String) (print_score : score_t → String) (print_e1 : ep1_t → String) (print_e2 : ep2_t → String) (print_b1 : bp1_t → String) (print_b2 : bp2_t → String) (print_align : alignment_t → String) (r : alignment_result id_t score_t (ep1_t × ep2_t) (bp1_t × bp2_t) alignment_t score_debug_matrix_t trace_debug_matrix_t) : String :=
  "\x7b"
    ++ id_piece print_id r.data.id
    ++ score_piece print_score r.data.score
    ++ begin_piece print_b1 print_b2 r.data.begin_positions
    ++ end_piece print_e1 print_e2 r.data.end_positions
    ++ alignment_piece print_align r.data.alignment
    ++ "\x7d"

/-- C4: streaming a result carrying id "r1", score 42, begin positions (2,3)
and end positions (9,11) but no alignment yields exactly
`\x7bid: r1, score: 42, begin: (2,3), end: (9,11)\x7d`, the fields in the
order id, score, begin, end, alignment. -/
theorem claim_C4 :
    stream_alignment_result (fun s => s) (fun s : Int => toString s)
      (fun n : Nat => toString n) (fun n : Nat => toString n)
      (fun n : Nat => toString n) (fun n : Nat => toString n) (fun a => a)
      (alignment_result.mk
        { id := some "r1"
          score := some (42 : Int)
          end_positions := some ((9, 11) : Nat × Nat)
          begin_positions := some ((2, 3) : Nat × Nat)
          alignment := (none : Option String)
          score_debug_matrix := (none : Option Unit)
          trace_debug_matrix := (none : Option Unit) }) =
      "\x7bid: r1, score: 42, begin: (2,3), end: (9,11)\x7d" := by
  rfl

/-- C9: each field separator is emitted unconditionally with its field,
independent of whether any earlier field was printed: when id is absent and
score present the output begins with `\x7b, score: `, and a present alignment
is preceded by a newline and the label `alignment:` rather than by a comma. -/
theorem claim_C9 (print_id : id_t → String) (print_score : score_t → String)
    (print_e1 : ep1_t → String) (print_e2 : ep2_t → String)
    (print_b1 : bp1_t → String) (print_b2 : bp2_t → String)
    (print_align : alignment_t → String)
    (r : alignment_result id_t score_t (ep1_t × ep2_t) (bp1_t × bp2_t) alignment_t score_debug_matrix_t trace_debug_matrix_t)
    (s : score_t) (h_id : r.data.id = none) (h_score : r.data.score = some s) :
    (∃ rest, stream_alignment_result print_id print_score print_e1 print_e2 print_b1 print_b2 print_align r =
      "\x7b, score: " ++ rest) ∧
    (∀ a, r.data.alignment = some a →
      ∃ pre, stream_alignment_result print_id print_score print_e1 print_e2 print_b1 print_b2 print_align r =
        pre ++ "\nalignment:\n" ++ (print_align a ++ "\x7d")) := by
  constructor
  · refine ⟨print_score s ++ (begin_piece print_b1 print_b2 r.data.begin_positions ++
      (end_piece print_e1 print_e2 r.data.end_positions ++
        (alignment_piece print_align r.data.alignment ++ "\x7d"))), ?_⟩
    have hlit : ("\x7b, score: " : String) = "\x7b" ++ ", score: " := rfl
    simp only [stream_alignment_result, h_id, h_score, id_piece, score_piece]
    simp only [String.append_empty, String.empty_append, String.append_assoc]
    rw [hlit, String.append_assoc]
  · intro a ha
    refine ⟨"\x7b" ++ id_piece print_id r.data.id ++ score_piece print_score r.data.score ++
      begin_piece print_b1 print_b2 r.data.begin_positions ++
      end_piece print_e1 print_e2 r.data.end_positions, ?_⟩
    simp only [stream_alignment_result, ha, alignment_piece]
    simp [String.append_assoc]

/-- Witness for C9 at a concrete result with id absent and score 42. -/
theorem claim_C9_witness :
    ∃ rest, stream_alignment_result (fun s => s) (fun s : Int => toString s)
      (fun n : Nat => toString n) (fun n : Nat => toString n)
      (fun n : Nat => toString n) (fun n : Nat => toString n) (fun a => a)
      (alignment_result.mk
        { id := (none : Option String)
          score := some (42 : Int)
          end_positions := some ((9, 11) : Nat × Nat)
          begin_positions := some ((2, 3) : Nat × Nat)
          alignment := (none : Option String)
          score_debug_matrix := (none : Option Unit)
          trace_debug_matrix := (none : Option Unit) }) = "\x7b, score: " ++ rest :=
  (claim_C9 (fun s => s) (fun s : Int => toString s)
    (fun n : Nat => toString n) (fun n : Nat => toString n)
    (fun n : Nat => toString n) (fun n : Nat => toString n) (fun a => a)
    (alignment_result.mk
      { id := (none : Option String)
        score := some (42 : Int)
        end_positions := some ((9, 11) : Nat × Nat)
        begin_positions := some ((2, 3) : Nat × Nat)
        alignment := (none : Option String)
        score_debug_matrix := (none : Option Unit)
        trace_debug_matrix := (none : Option Unit) }) 42 rfl rfl).1

/-- Which template parameters of a concrete C++ instantiation of
`alignment_result_value_type` are real field types rather than the absent
sentinel `std::nullopt_t *`. -/
structure field_shape where
  has_id : Bool
  has_score : Bool
  has_end_positions : Bool
  has_begin_positions : Bool
  has_alignment : Bool
  has_score_debug_matrix : Bool
  has_trace_debug_matrix : Bool

/-- Value-initialization `data{}` performed by the member initializers
`id_t id{}; score_t score{}; ...` (lines 55-68) when the defaulted public
default constructor `alignment_result() = default` (line 180) runs: every
present field holds the value-initialized default of its type. -/
def value_init (shape : field_shape) [Inhabited id_t] [Inhabited score_t] [Inhabited end_positions_t] [Inhabited begin_positions_t] [Inhabited alignment_t] [Inhabited score_debug_matrix_t] [Inhabited trace_debug_matrix_t] : alignment_result_value_type id_t score_t end_positions_t begin_positions_t alignment_t score_debug_matrix_t trace_debug_matrix_t :=
  { id := if shape.has_id then some default else none
    score := if shape.has_score then some default else none
    end_positions := if shape.has_end_positions then some default else none
    begin_positions := if shape.has_begin_positions then some default else none
    alignment := if shape.has_alignment then some default else none
    score_debug_matrix := if shape.has_score_debug_matrix then some default else none
    trace_debug_matrix := if shape.has_trace_debug_matrix then some default else none }

/-- The public default constructor `alignment_result() = default` (line 180):
no Result Builder involvement, just value-initialization of `data`. -/
def alignment_result.default_construct (shape : field_shape) [Inhabited id_t] [Inhabited score_t] [Inhabited end_positions_t] [Inhabited begin_positions_t] [Inhabited alignment_t] [Inhabited score_debug_matrix_t] [Inhabited trace_debug_matrix_t] : alignment_result id_t score_t end_positions_t begin_positions_t alignment_t score_debug_matrix_t trace_debug_matrix_t :=
  ⟨value_init shape⟩

/-- C10: `alignment_result` is publicly default-constructible; the defaulted
constructor value-initializes every field, so on an instantiation whose id
and score types are present, `score()` answers 0 and `id()` answers the empty
string, and the result of `score()` is indistinguishable from that of a
result genuinely constructed from algorithm output with score 0. -/
theorem claim_C10 :
    (∀ shape : field_shape, shape.has_score = true →
      (alignment_result.default_construct shape :
        alignment_result String Int (Nat × Nat) (Nat × Nat) String Unit Unit).score = Except.ok (0 : Int)) ∧
    (∀ shape : field_shape, shape.has_id = true →
      (alignment_result.default_construct shape :
        alignment_result String Int (Nat × Nat) (Nat × Nat) String Unit Unit).id = Except.ok "") ∧
    ((alignment_result.default_construct ⟨true, true, false, false, false, false, false⟩ :
        alignment_result String Int (Nat × Nat) (Nat × Nat) String Unit Unit).score =
      (alignment_result.mk (id_score_value "r1" (0 : Int))).score) := by
  refine ⟨fun shape h => ?_, fun shape h => ?_, rfl⟩ <;>
    simp [alignment_result.default_construct, value_init, alignment_result.score,
      alignment_result.id, h]

/-- Witness for C10 at the shape that has every field present. -/
theorem claim_C10_witness :
    (alignment_result.default_construct ⟨true, true, true, true, true, true, true⟩ :
      alignment_result String Int (Nat × Nat) (Nat × Nat) String Unit Unit).score = Except.ok (0 : Int) :=
  claim_C10.1 ⟨true, true, true, true, true, true, true⟩ rfl

/-- C8: when both begin and end positions are present and the external
algorithm supplied them with begin less or equal end componentwise, the
accessors satisfy `sequence1_begin_position() ≤ sequence1_end_position()` and
`sequence2_begin_position() ≤ sequence2_end_position()`; the construction
itself performs no cross-field numeric validation, it stores the supplied
data unchanged regardless of its numeric content. -/
theorem claim_C8 (v : alignment_result_value_type id_t score_t (Nat × Nat) (Nat × Nat) alignment_t score_debug_matrix_t trace_debug_matrix_t)
    (bp ep : Nat × Nat)
    (h_begin : v.begin_positions = some bp) (h_end : v.end_positions = some ep)
    (h1 : bp.1 ≤ ep.1) (h2 : bp.2 ≤ ep.2) :
    ((alignment_result.mk v).sequence1_begin_position = Except.ok bp.1 ∧
     (alignment_result.mk v).sequence1_end_position = Except.ok ep.1 ∧ bp.1 ≤ ep.1) ∧
    ((alignment_result.mk v).sequence2_begin_position = Except.ok bp.2 ∧
     (alignment_result.mk v).sequence2_end_position = Except.ok ep.2 ∧ bp.2 ≤ ep.2) ∧
    (∀ w : alignment_result_value_type id_t score_t (Nat × Nat) (Nat × Nat) alignment_t score_debug_matrix_t trace_debug_matrix_t,
      (alignment_result.mk w).data = w) := by
  refine ⟨⟨?_, ?_, h1⟩, ⟨?_, ?_, h2⟩, fun w => rfl⟩ <;>
    simp [alignment_result.sequence1_begin_position, alignment_result.sequence2_begin_position,
      alignment_result.sequence1_end_position, alignment_result.sequence2_end_position,
      h_begin, h_end]

/-- Witness for C8 at begin positions (2,3) and end positions (9,11). -/
theorem claim_C8_witness :
    (alignment_result.mk
      { id := some "r1"
        score := some (42 : Int)
        end_positions := some ((9, 11) : Nat × Nat)
        begin_positions := some ((2, 3) : Nat × Nat)
        alignment := (none : Option String)
        score_debug_matrix := (none : Option Unit)
        trace_debug_matrix := (none : Option Unit) }).sequence1_begin_position = Except.ok 2 :=
  (claim_C8
    { id := some "r1"
      score := some (42 : Int)
      end_positions := some ((9, 11) : Nat × Nat)
      begin_positions := some ((2, 3) : Nat × Nat)
      alignment := (none : Option String)
      score_debug_matrix := (none : Option Unit)
      trace_debug_matrix := (none : Option Unit) }
    (2, 3) (9, 11) rfl rfl (by decide) (by decide)).1.1

/-- Embedding of the members of `seqan3::detail::search_config_id` used by
`max_error.hpp` (the `id` members of the four configuration elements).  The
enumeration itself lives in `search/configuration/detail.hpp`. -/
inductive search_config_id where
  | max_error_total
  | max_error_substitution
  | max_error_insertion
  | max_error_deletion
deriving DecidableEq, Repr

/-- Modelled from the spec: the Tagged Value `Count | Rate` (spec §3, §4.1).
It mirrors the payload `std::variant<error_count, error_rate>` of the
configuration elements in `max_error.hpp`; the classes `error_count` and
`error_rate` themselves are declared in `max_error_common.hpp`, which is not
among the sources.  Rationals stand in for the real-valued rate. -/
inductive error_variant where
  | count : Int → error_variant
  | rate : ℚ → error_variant
deriving DecidableEq, Repr

/-- Modelled from the spec: constructing `Count(c)` succeeds and reports `c`
back unchanged iff `0 ≤ c`, otherwise it fails with `RangeError` at
construction time (spec §4.1, §8); `error_count` is outside the sources. -/
def make_error_count (c : Int) : Except RangeError Int :=
  if 0 ≤ c then Except.ok c else Except.error RangeError.out_of_range

/-- Modelled from the spec: constructing `Rate(r)` succeeds iff `r` lies in
`[0,1]`, otherwise it fails with `RangeError` at construction time (spec
§4.1, §8); `error_rate` is outside the sources. -/
def make_error_rate (r : ℚ) : Except RangeError ℚ :=
  if 0 ≤ r ∧ r ≤ 1 then Except.ok r else Except.error RangeError.out_of_range

/-- Embedding of `seqan3::search_cfg::max_error_total` (`max_error.hpp`
lines 35-41): a pipeable configuration element holding a count/rate variant. -/
structure max_error_total where
  value : error_variant

/-- The static category id of `max_error_total` (line 40). -/
def max_error_total.id : search_config_id := search_config_id.max_error_total

/-- Embedding of `seqan3::search_cfg::max_error_substitution` (lines 53-61). -/
structure max_error_substitution where
  value : error_variant

/-- The static category id of `max_error_substitution` (line 60). -/
def max_error_substitution.id : search_config_id := search_config_id.max_error_substitution

/-- Embedding of `seqan3::search_cfg::max_error_insertion` (lines 73-79). -/
structure max_error_insertion where
  value : error_variant

/-- The static category id of `max_error_insertion` (line 78). -/
def max_error_insertion.id : search_config_id := search_config_id.max_error_insertion

/-- Embedding of `seqan3::search_cfg::max_error_deletion` (lines 92-98). -/
structure max_error_deletion where
  value : error_variant

/-- The static category id of `max_error_deletion` (line 97). -/
def max_error_deletion.id : search_config_id := search_config_id.max_error_deletion

/-- A `max_error_total` element as it enters a configuration bundle: its
static category id paired with its payload. -/
def max_error_total.toElement (m : max_error_total) : search_config_id × error_variant :=
  (max_error_total.id, m.value)

/-- Modelled from the spec: the lookup `get(bundle, category)` of a
Configuration Bundle (spec §4.2) returns the value of the most recently
inserted element of that category, or absent; the configuration container
(`core/algorithm/configuration.hpp`) is not among the sources. -/
def getBundle {Cat Val : Type} [DecidableEq Cat] : List (Cat × Val) → Cat → Option Val
  | [], _ => none
  | e :: rest, c =>
    match getBundle rest c with
    | some v => some v
    | none => if e.1 = c then some e.2 else none

/-- Modelled from the spec: `combine(bundle, element)` (spec §4.2) appends
the element to the bundle, replacing any earlier element of the same
category (last-write-wins); the configuration container is not among the
sources. -/
def combineElement {Cat Val : Type} [DecidableEq Cat] (b : List (Cat × Val)) (e : Cat × Val) : List (Cat × Val) :=
  b.filter (fun x => !decide (x.1 = e.1)) ++ [e]

/-- Modelled from the spec: combining two bundles folds the elements of the
second into the first, in insertion order. -/
def combine {Cat Val : Type} [DecidableEq Cat] (b1 b2 : List (Cat × Val)) : List (Cat × Val) :=
  b2.foldl combineElement b1

/-- Merge of two lookup results in which the later write wins. -/
def lastWins {Val : Type} (a b : Option Val) : Option Val :=
  match b with
  | some v => some v
  | none => a

theorem lastWins_none_left {Val : Type} (b : Option Val) : lastWins none b = b := by
  cases b <;> rfl

theorem lastWins_assoc {Val : Type} (a b c : Option Val) :
    lastWins (lastWins a b) c = lastWins a (lastWins b c) := by
  cases c <;> cases b <;> rfl

theorem getBundle_append {Cat Val : Type} [DecidableEq Cat] (l1 l2 : List (Cat × Val)) (c : Cat) :
    getBundle (l1 ++ l2) c = lastWins (getBundle l1 c) (getBundle l2 c) := by
  induction l1 with
  | nil => simp [getBundle, lastWins_none_left]
  | cons e t ih =>
    simp only [List.cons_append, getBundle, List.append_eq]
    rw [ih]
    cases h2 : getBundle l2 c <;> cases h1 : getBundle t c <;> simp [lastWins]

theorem getBundle_filter {Cat Val : Type} [DecidableEq Cat] (b : List (Cat × Val)) (c d : Cat) (hcd : c ≠ d) :
    getBundle (b.filter (fun x => !decide (x.1 = d))) c = getBundle b c := by
  induction b with
  | nil => rfl
  | cons e t ih =>
    by_cases he : e.1 = d
    · have hec : ¬ e.1 = c := fun h => hcd (h ▸ he)
      have hfe : List.filter (fun x => !decide (x.1 = d)) (e :: t) =
          List.filter (fun x => !decide (x.1 = d)) t := by
        simp [List.filter_cons, he]
      rw [hfe, ih]
      cases h : getBundle t c <;> simp [getBundle, h, hec]
    · have hfe : List.filter (fun x => !decide (x.1 = d)) (e :: t) =
          e :: List.filter (fun x => !decide (x.1 = d)) t := by
        simp [List.filter_cons, he]
      rw [hfe]
      simp only [getBundle]
      rw [ih]

theorem getBundle_combineElement {Cat Val : Type} [DecidableEq Cat] (b : List (Cat × Val)) (e : Cat × Val) (c : Cat) :
    getBundle (combineElement b e) c = if e.1 = c then some e.2 else getBundle b c := by
  unfold combineElement
  rw [getBundle_append]
  by_cases h : e.1 = c
  · simp [getBundle, h, lastWins]
  · simp only [getBundle, h, if_false]
    cases hg : getBundle (b.filter (fun x => !decide (x.1 = e.1))) c <;>
      simp_all [lastWins, getBundle_filter b c e.1 (fun hh => h hh.symm)]

theorem getBundle_combine {Cat Val : Type} [DecidableEq Cat] (b1 b2 : List (Cat × Val)) (c : Cat) :
    getBundle (combine b1 b2) c = lastWins (getBundle b1 c) (getBundle b2 c) := by
  induction b2 generalizing b1 with
  | nil => cases h : getBundle b1 c <;> simp [combine, getBundle, lastWins, h]
  | cons e t ih =>
    show getBundle (combine (combineElement b1 e) t) c = _
    rw [ih, getBundle_combineElement]
    by_cases h : e.1 = c <;> cases ht : getBundle t c <;> simp [getBundle, lastWins, h, ht]

theorem filter_idem {α : Type} (p : α → Bool) (l : List α) :
    (l.filter p).filter p = l.filter p := by
  induction l with
  | nil => rfl
  | cons a t ih => by_cases h : p a = true <;> simp [List.filter_cons, h, ih]

theorem combineElement_idem {Cat Val : Type} [DecidableEq Cat] (b : List (Cat × Val)) (e : Cat × Val) :
    combineElement (combineElement b e) e = combineElement b e := by
  unfold combineElement
  rw [List.filter_append, filter_idem]
  simp

/-- C3: combining an element whose category is already present replaces the
older element: the lookup for that category answers the newer value and every
other category is untouched; in particular combining `TotalErrors: Count(3)`
and then `TotalErrors: Count(5)` yields a bundle whose lookup for
`TotalErrors` returns `Count(5)`. -/
theorem claim_C3 :
    (∀ (b : List (search_config_id × error_variant)) (e : search_config_id × error_variant),
      (∃ x ∈ b, x.1 = e.1) →
      getBundle (combineElement b e) e.1 = some e.2 ∧
      ∀ c, c ≠ e.1 → getBundle (combineElement b e) c = getBundle b c) ∧
    getBundle (combineElement (combineElement [] (search_config_id.max_error_total, error_variant.count 3))
        (search_config_id.max_error_total, error_variant.count 5)) search_config_id.max_error_total =
      some (error_variant.count 5) := by
  refine ⟨fun b e _h => ⟨?_, fun c hc => ?_⟩, rfl⟩
  · simp [getBundle_combineElement]
  · rw [getBundle_combineElement, if_neg (fun hh => hc hh.symm)]

/-- Witness for C3: the bundle already holding `TotalErrors: Count(3)`
combined with `TotalErrors: Count(5)` looks up to `Count(5)`. -/
theorem claim_C3_witness :
    getBundle (combineElement [(search_config_id.max_error_total, error_variant.count 3)]
        (search_config_id.max_error_total, error_variant.count 5)) search_config_id.max_error_total =
      some (error_variant.count 5) :=
  (claim_C3.1 [(search_config_id.max_error_total, error_variant.count 3)]
    (search_config_id.max_error_total, error_variant.count 5)
    ⟨(search_config_id.max_error_total, error_variant.count 3), by simp, rfl⟩).1

/-- C5: combine is associative on the resulting category-to-value mapping:
with the insertion order fixed, any grouping yields bundles whose lookup
agrees on every category. -/
theorem claim_C5 {Cat Val : Type} [DecidableEq Cat] (b1 b2 b3 : List (Cat × Val)) (c : Cat) :
    getBundle (combine (combine b1 b2) b3) c = getBundle (combine b1 (combine b2 b3)) c := by
  simp [getBundle_combine, lastWins_assoc]

/-- Witness for C5 at three concrete error-budget singleton bundles. -/
theorem claim_C5_witness :
    getBundle (combine (combine [(search_config_id.max_error_total, error_variant.count 3)]
        [(search_config_id.max_error_substitution, error_variant.count 1)])
        [(search_config_id.max_error_total, error_variant.count 5)]) search_config_id.max_error_total =
      getBundle (combine [(search_config_id.max_error_total, error_variant.count 3)]
        (combine [(search_config_id.max_error_substitution, error_variant.count 1)]
          [(search_config_id.max_error_total, error_variant.count 5)])) search_config_id.max_error_total :=
  claim_C5 [(search_config_id.max_error_total, error_variant.count 3)]
    [(search_config_id.max_error_substitution, error_variant.count 1)]
    [(search_config_id.max_error_total, error_variant.count 5)] search_config_id.max_error_total

/-- Modelled from the spec: the result-field categories of the result domain
(spec §3: Score, EndPositions, BeginPositions, Alignment, DebugScoreMatrix,
DebugTraceMatrix); the corresponding `align_cfg` elements are outside the
sources.  Each category contributes a bare presence marker. -/
inductive result_field where
  | score
  | end_positions
  | begin_positions
  | alignment
  | debug_score_matrix
  | debug_trace_matrix
deriving DecidableEq, Repr

/-- C6: re-requesting the same result field is an idempotent no-op: combining
the same presence-marker element twice yields a bundle equal to combining it
once. -/
theorem claim_C6 (b : List (result_field × Unit)) (e : result_field × Unit) :
    combineElement (combineElement b e) e = combineElement b e :=
  combineElement_idem b e

/-- Witness for C6 at the singleton score request. -/
theorem claim_C6_witness :
    combineElement (combineElement [] ((result_field.score, ()) : result_field × Unit))
        (result_field.score, ()) =
      combineElement [] ((result_field.score, ()) : result_field × Unit) :=
  claim_C6 [] (result_field.score, ())

/-- C7: for every integer `c`, `Count(c)` succeeds and reports `c` unchanged
iff `0 ≤ c`, failing with `RangeError` when `c < 0`; for every rate `r`,
`Rate(r)` succeeds iff `r` lies in `[0,1]` and fails with `RangeError`
otherwise, in both cases at construction time. -/
theorem claim_C7 :
    (∀ c : Int, (0 ≤ c → make_error_count c = Except.ok c) ∧
      (c < 0 → make_error_count c = Except.error RangeError.out_of_range)) ∧
    (∀ r : ℚ, (0 ≤ r ∧ r ≤ 1 → make_error_rate r = Except.ok r) ∧
      ((r < 0 ∨ 1 < r) → make_error_rate r = Except.error RangeError.out_of_range)) := by
  refine ⟨fun c => ⟨fun h => ?_, fun h => ?_⟩, fun r => ⟨fun h => ?_, fun h => ?_⟩⟩
  · simp [make_error_count, h]
  · have hn : ¬ 0 ≤ c := by omega
    simp [make_error_count, hn]
  · simp [make_error_rate, h.1, h.2]
  · rw [make_error_rate, if_neg]
    rcases h with h | h
    · exact fun hc => absurd hc.1 (not_le.mpr h)
    · exact fun hc => absurd hc.2 (not_le.mpr h)

/-- Witness for C7: `Count(3)` succeeds reporting 3, `Count(-1)` fails,
`Rate(1/2)` succeeds, `Rate(2)` fails. -/
theorem claim_C7_witness :
    make_error_count 3 = Except.ok 3 ∧
    make_error_count (-1) = Except.error RangeError.out_of_range ∧
    make_error_rate (1 / 2) = Except.ok (1 / 2) ∧
    make_error_rate 2 = Except.error RangeError.out_of_range :=
  ⟨(claim_C7.1 3).1 (by decide), (claim_C7.1 (-1)).2 (by decide),
   (claim_C7.2 (1 / 2)).1 (by constructor <;> norm_num),
   (claim_C7.2 2).2 (Or.inr (by norm_num))⟩

end Seqan3
